import Mathlib

/-!
Verification of the duration-accumulation core of the cumulative-usage sensor
(src/sensor.py). Timestamps are modelled as rational numbers of seconds since
an arbitrary epoch (Python datetimes carry microsecond precision and their
arithmetic is exact); the value of `datetime.now()` during a call is passed as
an explicit `now` argument. Fallible Python code is modelled with `Except`:
`.error ()` marks a raised exception.
-/

namespace CumulativeUsage

/-- A timestamp: seconds (possibly fractional) since an arbitrary epoch. -/
abbrev Time := ℚ

/-- Constant STATE_ON from homeassistant.const, imported at src/sensor.py:23. -/
def STATE_ON : String := "on"

/-- Constant STATE_OFF from homeassistant.const, imported at src/sensor.py:24. -/
def STATE_OFF : String := "off"

/-- One observed state object as delivered by the event bus. Only its
`last_changed` timestamp is read by `_handle_state_change`. -/
structure StateObj where
  last_changed : Time
deriving DecidableEq

/-- The in-memory `self._state` dict (when not None). After `_load_persisted`
the two timestamp keys are always present (a missing key raises inside the
try block, which nulls the whole state), but the `usage_in_sec` key is never
checked by the loader and may be absent, hence `Option`. -/
structure StateDict where
  last_reset_at : Time
  last_update_at : Time
  usage_in_sec : Option ℚ
deriving DecidableEq

/-- An ISO-8601 text field as stored in the JSON blob: either the
round-trippable `datetime.isoformat` encoding of a timestamp, or ill-formed
text that `datetime.fromisoformat` rejects. -/
inductive IsoText where
  | valid (t : Time)
  | invalid
deriving DecidableEq

/-- Model of `datetime.fromisoformat` (src/sensor.py:176-177): parses the
`isoformat` encoding of `t` back to `t` exactly; raises ValueError on
ill-formed text. -/
def fromisoformat : IsoText → Except Unit Time
  | .valid t => .ok t
  | .invalid => .error ()

/-- A parsed JSON object for the persisted blob; each key may be absent.
The numeric field is kept abstract as a rational. -/
structure Blob where
  last_reset_at : Option IsoText
  last_update_at : Option IsoText
  usage_in_sec : Option ℚ
deriving DecidableEq

/-- The content of the persistence file: absent, text that `json.load`
rejects (this also stands for parseable JSON that is not an object, since
subscripting it raises inside the same try block), or a parsed object. -/
inductive FileContent where
  | missing
  | malformed
  | parsed (b : Blob)
deriving DecidableEq

/-- `_load_persisted` (src/sensor.py:169-185), returning the new value of
`self._state` given the file content and the prior state. If the file does
not exist the method returns immediately, leaving the state unchanged.
Otherwise `json.load` and the two `fromisoformat` conversions run inside a
try block whose handler sets the state to None: unparseable text, a missing
timestamp key (KeyError) or ill-formed timestamp text all yield None. The
`usage_in_sec` key is never inspected, so its absence does not trip the
handler. -/
def loadPersisted (file : FileContent) (prior : Option StateDict) : Option StateDict :=
  match file with
  | .missing => prior
  | .malformed => none
  | .parsed b =>
    match b.last_reset_at with
    | none => none
    | some rIso =>
      match fromisoformat rIso with
      | .error _ => none
      | .ok tr =>
        match b.last_update_at with
        | none => none
        | some uIso =>
          match fromisoformat uIso with
          | .error _ => none
          | .ok tu => some ⟨tr, tu, b.usage_in_sec⟩

/-- `_save_persisted` (src/sensor.py:187-201) applied to a non-None state
dict: `json.dump` with the `isoconverter` default writes each datetime as
its `isoformat` text and writes the usage number verbatim; a key absent from
the dict is absent from the blob. -/
def savePersisted (s : StateDict) : Blob :=
  ⟨some (.valid s.last_reset_at), some (.valid s.last_update_at), s.usage_in_sec⟩

/-- `reset_timer` (src/sensor.py:138-147): unconditionally replaces the state
with a zeroed record. The two `datetime.now()` calls on lines 141-142 are
modelled as the same instant `now`. Returns the new state; persistence and
the observer notification carry no information back into the state. -/
def reset_timer (prior : Option StateDict) (now : Time) : Option StateDict :=
  some ⟨now, now, some 0⟩

/-- `_default_state` (src/sensor.py:162-167). -/
def defaultState (now : Time) : StateDict :=
  ⟨now, now, some 0⟩

/-- `_handle_state_change` (src/sensor.py:149-160), returning the new value
of `self._state`. The debug log on line 151 evaluates `old_state.last_changed`
and `new_state.last_changed` before the None guard on line 152, so a None
argument raises AttributeError, modelled as `.error ()` (the guard itself is
unreachable for None inputs). Otherwise: diff is the difference of the two
`last_changed` timestamps; if the state is falsy or lacks the `usage_in_sec`
key, `_default_state` runs first; then diff is added to `usage_in_sec` and
`last_update_at` is set to `datetime.now()`, modelled as `now`. -/
def handleStateChange (old_state new_state : Option StateObj)
    (st : Option StateDict) (now : Time) : Except Unit (Option StateDict) :=
  match old_state, new_state with
  | some o, some n =>
    let diff := n.last_changed - o.last_changed
    match st with
    | some s =>
      match s.usage_in_sec with
      | some c => .ok (some ⟨s.last_reset_at, now, some (c + diff)⟩)
      | none => .ok (some ⟨(defaultState now).last_reset_at, now, some (0 + diff)⟩)
    | none => .ok (some ⟨(defaultState now).last_reset_at, now, some (0 + diff)⟩)
  | _, _ => .error ()

/-- Model of the Python `str.lower()` call on the unit string: lower-case
each character (the recognized units are ASCII, where this matches Python
exactly). -/
def pyLower (s : String) : String :=
  ⟨s.data.map Char.toLower⟩

/-- `native_value` (src/sensor.py:112-123): None when the state dict is falsy;
otherwise reads `usage_in_sec` (a KeyError if the key is absent, modelled as
`.error ()`) and converts it according to the lower-cased unit. -/
def native_value (st : Option StateDict) (unit : String) : Except Unit (Option ℚ) :=
  match st with
  | none => .ok none
  | some s =>
    match s.usage_in_sec with
    | none => .error ()
    | some c =>
      let u := pyLower unit
      .ok (some (if u = "h" then c / 3600 else if u = "m" then c / 60 else c))

/-- The auxiliary attributes exposed alongside the measurement. -/
structure StateAttrs where
  last_reset_at : Time
  last_update_at : Time
deriving DecidableEq

/-- `extra_state_attributes` (src/sensor.py:125-130): `dict(self._state)`
raises TypeError when the state is None, and `ret.pop` without a default
raises KeyError when the `usage_in_sec` key is absent; both are modelled as
`.error ()`. Otherwise the two timestamps remain. -/
def extra_state_attributes (st : Option StateDict) : Except Unit StateAttrs :=
  match st with
  | none => .error ()
  | some s =>
    match s.usage_in_sec with
    | none => .error ()
    | some _ => .ok ⟨s.last_reset_at, s.last_update_at⟩

/-- The subscription registered in `async_added_to_hass` (src/sensor.py:135-
136): `async_track_state_change(entity_id, handler, STATE_ON, STATE_OFF)`.
The Home Assistant helper `async_track_state_change(hass, entity_ids, action,
from_state, to_state)` invokes the handler only for transitions whose old
state matches `from_state` and whose new state matches `to_state`; here the
source passes `from_state = STATE_ON` and `to_state = STATE_OFF`, so this
predicate holds exactly when the notification is forwarded to
`_handle_state_change`. -/
def listenerForwards (oldState newState : String) : Bool :=
  oldState == STATE_ON && newState == STATE_OFF

/-- Claim C1: for every pair of transition timestamps, `_handle_state_change`
on an initialized state adds exactly `t1 - t0` seconds to `usage_in_sec` —
verbatim, with no clamping, hence also when the delta is negative or zero —
and sets `last_update_at` to the time of the call (`now`, arbitrary here),
not to `t1`. -/
theorem handleStateChange_adds_delta (o n : StateObj) (r u c : ℚ) (now : Time) :
    handleStateChange (some o) (some n) (some ⟨r, u, some c⟩) now
      = .ok (some ⟨r, now, some (c + (n.last_changed - o.last_changed))⟩) := rfl

/-- Claim C2 counterexample: starting from the zeroed record produced by
`reset_timer`, one transition whose timestamps run backwards leaves
`usage_in_sec` at -1, so the non-negativity invariant is not preserved by
`_handle_state_change`. -/
theorem usage_nonneg_fails :
    ∃ s : StateDict,
      handleStateChange (some ⟨1⟩) (some ⟨0⟩) (reset_timer none 0) 0 = .ok (some s)
      ∧ s.usage_in_sec = some (0 + (0 - 1))
      ∧ ¬ (0 : ℚ) ≤ 0 + (0 - 1) := by
  refine ⟨⟨0, 0, some (0 + (0 - 1))⟩, rfl, rfl, by norm_num⟩

/-- Claim C2 amended: `reset_timer` always establishes `usage_in_sec = 0`,
and `_handle_state_change` preserves non-negativity whenever the observed
delta is non-negative; a backwards delta can break the invariant (see the
counterexample). -/
theorem usage_nonneg_preserved :
    (∀ prior now, reset_timer prior now = some ⟨now, now, some 0⟩)
    ∧ (∀ (o n : StateObj) (r u c : ℚ) (now : Time), 0 ≤ c →
        o.last_changed ≤ n.last_changed →
        ∃ s : StateDict,
          handleStateChange (some o) (some n) (some ⟨r, u, some c⟩) now = .ok (some s)
          ∧ s.usage_in_sec = some (c + (n.last_changed - o.last_changed))
          ∧ (0 : ℚ) ≤ c + (n.last_changed - o.last_changed)) := by
  refine ⟨fun prior now => rfl, fun o n r u c now hc hle => ⟨_, rfl, rfl, by linarith⟩⟩

/-- Witness for the amended claim C2 at a concrete input. -/
theorem usage_nonneg_preserved_witness :
    ∃ s : StateDict,
      handleStateChange (some ⟨3⟩) (some ⟨5⟩) (some ⟨0, 0, some 2⟩) 7 = .ok (some s)
      ∧ s.usage_in_sec = some (2 + (5 - 3))
      ∧ (0 : ℚ) ≤ 2 + (5 - 3) :=
  usage_nonneg_preserved.2 ⟨3⟩ ⟨5⟩ 0 0 2 7 (by norm_num) (by norm_num)

/-- Claim C3 counterexample: an inactive-to-active notification carries two
defined states, yet the subscription filter does not forward it to the
accumulator. -/
theorem listener_drops_off_to_on :
    listenerForwards STATE_OFF STATE_ON = false := rfl

/-- Claim C3 amended: the subscription registered with `from_state = STATE_ON`
and `to_state = STATE_OFF` forwards a notification exactly when the old state
is active and the new state is inactive, so the direction of the transition
does determine whether the interval is measured. -/
theorem listener_forwards_on_to_off (o n : String) :
    listenerForwards o n = true ↔ (o = STATE_ON ∧ n = STATE_OFF) := by
  simp [listenerForwards]

/-- Witness for the amended claim C3 at a concrete input. -/
theorem listener_forwards_on_to_off_witness :
    listenerForwards STATE_ON STATE_OFF = true :=
  (listener_forwards_on_to_off STATE_ON STATE_OFF).mpr ⟨rfl, rfl⟩

/-- Claim C4 counterexample: a blob whose two timestamps are well-formed but
whose `usage_in_sec` key is absent does not load as absent — the loader never
inspects that key and keeps the partially-populated record. -/
theorem load_partial_blob_not_absent :
    loadPersisted (.parsed ⟨some (.valid 0), some (.valid 0), none⟩) none
        = some ⟨0, 0, none⟩
    ∧ loadPersisted (.parsed ⟨some (.valid 0), some (.valid 0), none⟩) none ≠ none := by
  exact ⟨rfl, by simp [loadPersisted, fromisoformat]⟩

/-- Claim C4 amended: the loader yields absent state for unparseable text,
for a missing or ill-formed `last_reset_at` or `last_update_at`, and leaves
the (absent) state unchanged when the file is missing; but a blob missing
only `usage_in_sec` loads as a partial record, and it is the next
`_handle_state_change` that detects the missing key and initializes a fresh
zeroed record before adding its delta. -/
theorem load_rejects_and_apply_reinits :
    loadPersisted .missing none = none
    ∧ (∀ prior, loadPersisted .malformed prior = none)
    ∧ (∀ u x prior, loadPersisted (.parsed ⟨none, u, x⟩) prior = none)
    ∧ (∀ u x prior, loadPersisted (.parsed ⟨some .invalid, u, x⟩) prior = none)
    ∧ (∀ t x prior, loadPersisted (.parsed ⟨some (.valid t), none, x⟩) prior = none)
    ∧ (∀ t x prior,
        loadPersisted (.parsed ⟨some (.valid t), some .invalid, x⟩) prior = none)
    ∧ (∀ t u prior,
        loadPersisted (.parsed ⟨some (.valid t), some (.valid u), none⟩) prior
          = some ⟨t, u, none⟩)
    ∧ (∀ t u (o n : StateObj) (now : Time),
        handleStateChange (some o) (some n) (some ⟨t, u, none⟩) now
          = .ok (some ⟨now, now, some (0 + (n.last_changed - o.last_changed))⟩)) := by
  refine ⟨rfl, fun prior => rfl, fun u x prior => rfl, fun u x prior => rfl,
    fun t x prior => rfl, fun t x prior => rfl, fun t u prior => rfl,
    fun t u o n now => rfl⟩

/-- Claim C5: with a None `old_state` the debug log on src/sensor.py:151
dereferences `old_state.last_changed` before the None guard on line 152, so
the call raises AttributeError instead of silently no-opping. -/
theorem handleStateChange_none_raises :
    handleStateChange none (some ⟨0⟩) (some ⟨0, 0, some 5⟩) 0 = .error ()
    ∧ handleStateChange (some ⟨0⟩) none (some ⟨0, 0, some 5⟩) 0 = .error () :=
  ⟨rfl, rfl⟩

/-- Claim C6: saving any in-memory record and loading it back yields the
record unchanged — the isoformat encoding round-trips timestamps exactly. -/
theorem load_save_roundtrip (r : StateDict) (prior : Option StateDict) :
    loadPersisted (.parsed (savePersisted r)) prior = some r := rfl

/-- Claim C7: `reset_timer` unconditionally replaces any prior state —
initialized or not — with a record carrying `usage_in_sec = 0` and both
timestamps at the call time, and a second reset does the same with the
timestamps of the second call. -/
theorem reset_zeroes_and_idempotent :
    (∀ prior now, reset_timer prior now = some ⟨now, now, some 0⟩)
    ∧ (∀ prior n1 n2,
        reset_timer prior n1 = some ⟨n1, n1, some 0⟩
        ∧ reset_timer (reset_timer prior n1) n2 = some ⟨n2, n2, some 0⟩) :=
  ⟨fun prior now => rfl, fun prior n1 n2 => ⟨rfl, rfl⟩⟩

/-- Claim C8: the unit conversion in `native_value` is total over its inputs:
unit h divides the stored seconds by 3600, m divides by 60, s returns them
unchanged, and every other unit — any string whose lower-casing is neither
h nor m — also returns them unchanged (identity); concretely 3600 s is 1 h,
90 s is 1.5 m, and 45 s stays 45 under both s and an unknown unit. -/
theorem native_value_units (s : ℚ) (a b : Time) :
    (∀ unit : String, pyLower unit ≠ "h" → pyLower unit ≠ "m" →
        native_value (some ⟨a, b, some s⟩) unit = .ok (some s))
    ∧ native_value (some ⟨a, b, some s⟩) "h" = .ok (some (s / 3600))
    ∧ native_value (some ⟨a, b, some s⟩) "m" = .ok (some (s / 60))
    ∧ native_value (some ⟨a, b, some s⟩) "s" = .ok (some s)
    ∧ native_value (some ⟨a, b, some s⟩) "x" = .ok (some s)
    ∧ native_value (some ⟨0, 0, some 3600⟩) "h" = .ok (some 1)
    ∧ native_value (some ⟨0, 0, some 90⟩) "m" = .ok (some (3 / 2))
    ∧ native_value (some ⟨0, 0, some 45⟩) "s" = .ok (some 45)
    ∧ native_value (some ⟨0, 0, some 45⟩) "x" = .ok (some 45) := by
  refine ⟨?_, rfl, rfl, rfl, rfl, ?_, ?_, rfl, rfl⟩
  · intro unit h1 h2
    show Except.ok (some (if pyLower unit = "h" then s / 3600
        else if pyLower unit = "m" then s / 60 else s)) = Except.ok (some s)
    rw [if_neg h1, if_neg h2]
  · show Except.ok (some ((3600 : ℚ) / 3600)) = Except.ok (some 1)
    norm_num
  · show Except.ok (some ((90 : ℚ) / 60)) = Except.ok (some (3 / 2))
    norm_num

/-- Witness for claim C8 at a concrete unrecognized unit. -/
theorem native_value_units_witness :
    native_value (some ⟨0, 0, some 45⟩) ("kWh") = .ok (some 45) :=
  (native_value_units 45 0 0).1 ("kWh") (by decide) (by decide)

/-- Claim C9: the auxiliary attribute accessor raises on the uninitialized
state — `dict(self._state)` with a None state raises TypeError — so not every
public operation completes without an unhandled fault. -/
theorem extra_state_attributes_uninit_raises :
    extra_state_attributes none = .error () := rfl

/-- Claim C10: on every fully-initialized state, `_handle_state_change`
leaves `last_reset_at` unchanged, touching only `usage_in_sec` and
`last_update_at`. -/
theorem handleStateChange_frame (o n : StateObj) (r u c : ℚ) (now : Time) :
    (handleStateChange (some o) (some n) (some ⟨r, u, some c⟩) now).map
        (Option.map StateDict.last_reset_at) = .ok (some r) := rfl

end CumulativeUsage
